import Mathlib

/-!
Verification of the m17-mod pipeline driver (src/m17-mod.cpp).

The file embeds, as executable Lean definitions, the parts of the program
the claims are about: configuration parsing (`Config.parse`), the main
entry's pre-pipeline behaviour (`mainRun`), the capture-thread loop
(`captureRun`), the frame-assembler loop of the main thread
(`stepBit` / `runAssembler`), the empty-`get` branch (`onEmptyGet`),
the teardown sequence (`teardownSeq`), and the writes to the global
run-control flag (`FlagWrite` traces).
-/

namespace M17Mod

/-- The session configuration, mirroring `struct Config` in m17-mod.cpp.
`key` is a `uint16_t` event code, kept as a `Nat`. -/
structure Config where
  source_address : String
  destination_address : String
  audio_device : String
  event_device : String
  key : Nat
  verbose : Bool
  debug : Bool
  quiet : Bool
  bitstream : Bool
deriving Repr, DecidableEq

/-- The parsed command line as boost's `variables_map` presents it to
`Config::parse`: presence of the `help`/`version` flags, optional values
for the value-taking options, and the boolean switches. -/
structure CmdLine where
  help : Bool
  version : Bool
  src : Option String
  dest : Option String
  audio : Option String
  event : Option String
  key : Option Nat
  bitstream : Bool
  verbose : Bool
  debug : Bool
  quiet : Bool
deriving Repr, DecidableEq

/-- What `Config::parse` prints on each of its exit paths. -/
inductive Msg where
  | helpText
  | versionText
  | errMissingSrc
  | errConflict
  | errSrcTooLong
  | errDestTooLong
deriving Repr, DecidableEq

/-- Default for the `event` option (from the `default_value` in the
options description). -/
def defaultEventDevice : String :=
  "/dev/input/by-id/usb-C-Media_Electronics_Inc._USB_Audio_Device-event-if03"

/-- `Config::parse` (m17-mod.cpp lines 24-98), embedded over a typed
command line.  Order of checks follows the source: `help`, then
`version`, then `po::notify` (which throws when the required `src`
option is absent; the exception is caught and `nullopt` returned), then
the mutual-exclusion check on `debug`/`verbose`/`quiet`, then the length
checks on the source and destination identifiers.  Returns the optional
configuration together with the messages printed. -/
def Config.parse (cl : CmdLine) : Option Config × List Msg :=
  if cl.help then
    (none, [Msg.helpText])
  else if cl.version then
    (none, [Msg.versionText])
  else
    match cl.src with
    | none => (none, [Msg.errMissingSrc])
    | some src =>
      let result : Config :=
        { source_address := src
          destination_address := cl.dest.getD ""
          audio_device := cl.audio.getD ""
          event_device := cl.event.getD defaultEventDevice
          key := cl.key.getD 385
          verbose := cl.verbose
          debug := cl.debug
          quiet := cl.quiet
          bitstream := cl.bitstream }
      if (if result.debug then 1 else 0) + (if result.verbose then 1 else 0)
          + (if result.quiet then 1 else 0) > 1 then
        (none, [Msg.errConflict])
      else if result.source_address.length > 9 then
        (none, [Msg.errSrcTooLong])
      else if result.destination_address.length > 9 then
        (none, [Msg.errDestTooLong])
      else
        (some result, [])

/-- Pipeline-construction events performed by `main` after a successful
parse (m17-mod.cpp lines 119-132), in program order. -/
inductive MainEvent where
  | constructAudioQueue
  | constructBitstreamQueue
  | startEncodingTask
  | pttOn
  | startCaptureThread
deriving Repr, DecidableEq

/-- The pre-pipeline behaviour of `main` (lines 114-132): if parsing
returns no configuration, `main` returns 0 at once and no queue is
constructed and no thread started; otherwise it constructs the queues,
starts the encoding task, keys the transmitter and starts the capture
thread, ultimately returning `EXIT_SUCCESS` (0). -/
def mainRun (cl : CmdLine) : Nat × List MainEvent :=
  match (Config.parse cl).fst with
  | none => (0, [])
  | some _ =>
      (0, [MainEvent.constructAudioQueue, MainEvent.constructBitstreamQueue,
           MainEvent.startEncodingTask, MainEvent.pttOn,
           MainEvent.startCaptureThread])

/-- Number of verbosity switches set on a command line, as summed at
m17-mod.cpp line 79. -/
def verbosityCount (cl : CmdLine) : Nat :=
  (if cl.debug then 1 else 0) + (if cl.verbose then 1 else 0)
    + (if cl.quiet then 1 else 0)

/-! ## Sample Capture Stage (m17-mod.cpp lines 132-141)

The capture thread runs `while (running && std::cin) { std::cin.read(&sample, 2);
audio_queue->put(sample, 5s); }`.  The stream state is tested only at the
top of the loop, so after the read fails (EOF / short read) the body still
performs one `put` of the variable `sample`, which then holds its previous
value (`0` before any sample was read).  `captureRun input sample` returns
the sequence of values passed to `audio_queue->put`, where `input` is the
list of full samples available on the input stream and `sample` the current
value of the local variable (initialised to `0` at m17-mod.cpp line 133).
The run-control flag is not cleared during this loop, so it is not part of
the state here. -/
def captureRun : List Int → Int → List Int
  | [], sample => [sample]
  | x :: rest, _ => x :: captureRun rest x

/-- The puts performed by the capture thread of a whole run, from the
initial `int16_t sample = 0`. -/
def capturePuts (input : List Int) : List Int :=
  captureRun input 0

/-! ## Frame Assembler / Output Stage (m17-mod.cpp lines 146-176) -/

/-- Observable writes of the output stage: a raw byte (`std::cout << bits`
in bitstream mode), a whole-frame baseband conversion+write (the
`symbols_to_baseband(bytes_to_symbols(bitstream))` block in baseband
mode, recorded with the frame contents), and a `std::cout.flush()`. -/
inductive OutEvent where
  | byte (b : Nat)
  | basebandOf (f : List Nat)
  | flush
deriving Repr, DecidableEq

/-- State of the main-thread assembler loop: `index` is `size_t index`,
`frame` models the `M17Modulator::bitstream_t bitstream` array (length =
frame capacity), `out` the writes made to `std::cout` so far, and `oob`
records whether a store `bitstream[index]` was ever attempted with
`index` at or above the array's size (undefined behaviour in the C++). -/
structure AsmState where
  index : Nat
  frame : List Nat
  out : List OutEvent
  oob : Bool
deriving Repr, DecidableEq

/-- One iteration of the body at m17-mod.cpp lines 156-175 for a bit
received from the queue.  `cap` is `bitstream.size()` (the frame
capacity); `mode = true` is bitstream output mode, `false` baseband.
Faithful to the source:
* bitstream mode writes the byte, increments `index`, and when
  `index == bitstream.size()` executes `index == 0;` — a comparison with
  no effect, NOT a reset — and then flushes;
* baseband mode stores `bitstream[index++] = bits` (recording an
  out-of-bounds attempt when `index ≥ cap`), and when
  `index == bitstream.size()` converts and writes the frame and flushes,
  again without any reset of `index`. -/
def stepBit (cap : Nat) (mode : Bool) (s : AsmState) (b : Nat) : AsmState :=
  if mode then
    let s1 : AsmState :=
      { s with out := s.out ++ [OutEvent.byte b], index := s.index + 1 }
    if s1.index = cap then { s1 with out := s1.out ++ [OutEvent.flush] }
    else s1
  else
    let s1 : AsmState :=
      { s with frame := s.frame.set s.index b
               oob := s.oob || decide (cap ≤ s.index)
               index := s.index + 1 }
    if s1.index = cap then
      { s1 with out := s1.out ++ [OutEvent.basebandOf s1.frame, OutEvent.flush] }
    else s1

/-- Initial assembler state: `size_t index = 0`, a fresh frame buffer of
`cap` bytes, nothing written. -/
def initAsm (cap : Nat) : AsmState :=
  { index := 0, frame := List.replicate cap 0, out := [], oob := false }

/-- The assembler loop applied to the finite sequence of bits delivered
by the bitstream queue during a run. -/
def runAssembler (cap : Nat) (mode : Bool) (bits : List Nat) : AsmState :=
  bits.foldl (stepBit cap mode) (initAsm cap)

/-- Number of flushes in an output trace; the program flushes exactly
once per frame it treats as completed, so this counts emitted frames. -/
def flushCount : List OutEvent → Nat
  | [] => 0
  | OutEvent.flush :: rest => flushCount rest + 1
  | _ :: rest => flushCount rest

/-- The empty-`get` branch of the assembler loop (m17-mod.cpp lines
148-154): when `bitstream_queue->get(bits, 1s)` returns no bit, the code
executes `assert(bitstream_queue->is_closed())` — aborting when the
queue is not closed — then logs, clears the run-control flag
(`running = false`) and breaks out of the loop.  Result on the
non-aborting path: the new value of `running` paired with whether the
loop was exited. -/
def onEmptyGet (closed : Bool) : Except String (Bool × Bool) :=
  if closed then Except.ok (false, true)
  else Except.error "assertion failed: bitstream_queue->is_closed()"

/-! ## Teardown (m17-mod.cpp lines 180-186) and the run-control flag -/

/-- The teardown operations of `main` after the assembler loop exits. -/
inductive TearEvent where
  | clearRunFlag
  | pttOff
  | waitUntilIdle
  | joinCaptureThread
  | closeAudioQueue
  | futureGet
  | closeBitstreamQueue
deriving Repr, DecidableEq

/-- The straight-line teardown sequence executed by `main` at
m17-mod.cpp lines 180-186, in program order. -/
def teardownSeq : List TearEvent :=
  [TearEvent.clearRunFlag, TearEvent.pttOff, TearEvent.waitUntilIdle,
   TearEvent.joinCaptureThread, TearEvent.closeAudioQueue,
   TearEvent.futureGet, TearEvent.closeBitstreamQueue]

/-- The writes any part of the program ever performs on the global
`std::atomic<bool> running`: the capture thread writes `true` at its
loop entry (line 134) and `false` at its exit (line 140); the signal
handler writes `false` (line 105); the assembler's empty-`get` branch
writes `false` (line 152); teardown writes `false` (line 180). -/
inductive FlagWrite where
  | captureEntry
  | captureExit
  | sigintHandler
  | assemblerStop
  | teardownClear
deriving Repr, DecidableEq

/-- The value a flag write stores: only the capture thread's entry write
stores `true`. -/
def FlagWrite.value : FlagWrite → Bool
  | FlagWrite.captureEntry => true
  | _ => false

/-- Value of `running` after a sequence of writes; it is initialised
`false` (line 101), so the value is that of the last write, `false` when
none happened yet. -/
def flagAfter (t : List FlagWrite) : Bool :=
  t.foldl (fun _ w => w.value) false

/-- A write trace is one of a single run: the capture thread executes its
loop-entry write `running = true` exactly once per run, so it occurs at
most once in any interleaving of the threads and the signal handler. -/
def validTrace (t : List FlagWrite) : Prop :=
  t.count FlagWrite.captureEntry ≤ 1

instance (t : List FlagWrite) : Decidable (validTrace t) := by
  unfold validTrace; infer_instance

/-! ## Theorems -/

/-- C9: if the help option is present, `Config::parse` prints the usage
text and returns no configuration before the required-option and
identifier-length validation run, so regardless of every other option the
only output is the help text, no configuration is returned, and `main`
exits 0 without constructing a queue or starting a thread. -/
theorem help_precedence (cl : CmdLine) (hh : cl.help = true) :
    Config.parse cl = (none, [Msg.helpText]) ∧ mainRun cl = (0, []) := by
  have hp : Config.parse cl = (none, [Msg.helpText]) := by
    unfold Config.parse
    rw [hh]
    simp
  exact ⟨hp, by simp [mainRun, hp]⟩

/-- C9 witness: an invocation with help set, no source identifier and
conflicting verbosity flags still returns no configuration via the help
path. -/
theorem help_precedence_witness :
    Config.parse
      { help := true, version := false, src := none, dest := none,
        audio := none, event := none, key := none, bitstream := false,
        verbose := true, debug := true, quiet := false }
      = (none, [Msg.helpText]) ∧
    mainRun
      { help := true, version := false, src := none, dest := none,
        audio := none, event := none, key := none, bitstream := false,
        verbose := true, debug := true, quiet := false }
      = (0, []) :=
  help_precedence _ rfl

/-- C7: every source identifier longer than 9 characters is rejected:
on an invocation that reaches the validation (no help/version request,
the source present, verbosity flags not conflicting), `Config::parse`
prints the too-long error and returns no configuration, and `main` then
returns 0 without constructing a queue or starting a thread. -/
theorem oversized_src_rejected (cl : CmdLine) (s : String)
    (hh : cl.help = false) (hv : cl.version = false)
    (hs : cl.src = some s) (hlen : 9 < s.length)
    (hvc : verbosityCount cl ≤ 1) :
    Config.parse cl = (none, [Msg.errSrcTooLong]) ∧ mainRun cl = (0, []) := by
  have hc : ¬((if cl.debug then 1 else 0) + (if cl.verbose then 1 else 0)
      + (if cl.quiet then 1 else 0) > 1) := by
    unfold verbosityCount at hvc; omega
  have hp : Config.parse cl = (none, [Msg.errSrcTooLong]) := by
    unfold Config.parse
    rw [hh, hv, hs]
    simp only [Bool.false_eq_true, if_false]
    rw [if_neg hc, if_pos hlen]
  exact ⟨hp, by simp [mainRun, hp]⟩

/-- C7 witness: a 10-character source identifier is rejected with exit
code 0 and no pipeline event. -/
theorem oversized_src_rejected_witness :
    Config.parse
      { help := false, version := false, src := some "ABCDEFGHIJ",
        dest := none, audio := none, event := none, key := none,
        bitstream := false, verbose := false, debug := false, quiet := false }
      = (none, [Msg.errSrcTooLong]) ∧
    mainRun
      { help := false, version := false, src := some "ABCDEFGHIJ",
        dest := none, audio := none, event := none, key := none,
        bitstream := false, verbose := false, debug := false, quiet := false }
      = (0, []) :=
  oversized_src_rejected _ "ABCDEFGHIJ" rfl rfl rfl (by decide) (by decide)

/-- C10: on an invocation that reaches validation (no help/version,
verbosity flags not conflicting), omitting the destination identifier
while giving a valid source yields a configuration whose destination
string is empty, whereas omitting the source identifier makes parsing
report the missing-option error and return no configuration. -/
theorem dest_optional_src_required (cl : CmdLine) (s : String)
    (hh : cl.help = false) (hv : cl.version = false)
    (hvc : verbosityCount cl ≤ 1) :
    (cl.src = some s → s.length ≤ 9 → cl.dest = none →
      ∃ cfg, (Config.parse cl).fst = some cfg ∧
        cfg.destination_address = "" ∧ cfg.source_address = s) ∧
    (cl.src = none → Config.parse cl = (none, [Msg.errMissingSrc])) := by
  have hc : ¬((if cl.debug then 1 else 0) + (if cl.verbose then 1 else 0)
      + (if cl.quiet then 1 else 0) > 1) := by
    unfold verbosityCount at hvc; omega
  constructor
  · intro hs hlen hd
    have hp : (Config.parse cl).fst = some
        { source_address := s, destination_address := "",
          audio_device := cl.audio.getD "",
          event_device := cl.event.getD defaultEventDevice,
          key := cl.key.getD 385, verbose := cl.verbose,
          debug := cl.debug, quiet := cl.quiet,
          bitstream := cl.bitstream } := by
      unfold Config.parse
      rw [hh, hv, hs, hd]
      simp only [Bool.false_eq_true, if_false, Option.getD_none]
      rw [if_neg hc, if_neg (by omega : ¬ s.length > 9),
          if_neg (by simp : ¬ (String.length "" > 9))]
    exact ⟨_, hp, rfl, rfl⟩
  · intro hs
    unfold Config.parse
    rw [hh, hv, hs]
    simp

/-- C10 witness: destination omitted with source "N0CALL" parses to a
configuration with empty (broadcast) destination; source omitted is
rejected with the missing-option error. -/
theorem dest_optional_src_required_witness :
    (∃ cfg, (Config.parse
      { help := false, version := false, src := some "N0CALL",
        dest := none, audio := none, event := none, key := none,
        bitstream := false, verbose := false, debug := false,
        quiet := false }).fst = some cfg ∧
        cfg.destination_address = "" ∧ cfg.source_address = "N0CALL") ∧
    Config.parse
      { help := false, version := false, src := none,
        dest := none, audio := none, event := none, key := none,
        bitstream := false, verbose := false, debug := false,
        quiet := false } = (none, [Msg.errMissingSrc]) :=
  ⟨(dest_optional_src_required _ "N0CALL" rfl rfl (by decide)).1 rfl (by decide) rfl,
   (dest_optional_src_required _ "" rfl rfl (by decide)).2 rfl⟩

/-! ### Assembler lemmas -/

theorem stepBit_index (cap : Nat) (mode : Bool) (s : AsmState) (b : Nat) :
    (stepBit cap mode s b).index = s.index + 1 := by
  unfold stepBit
  split <;> (dsimp only) <;> split <;> rfl

theorem stepBit_oob (cap : Nat) (s : AsmState) (b : Nat) :
    (stepBit cap false s b).oob = (s.oob || decide (cap ≤ s.index)) := by
  unfold stepBit
  simp only [Bool.false_eq_true, if_false]
  split <;> rfl

theorem flushCount_append (a b : List OutEvent) :
    flushCount (a ++ b) = flushCount a + flushCount b := by
  induction a with
  | nil => simp [flushCount]
  | cons x rest ih => cases x <;> simp [flushCount, ih] <;> omega

theorem stepBit_flushCount (cap : Nat) (mode : Bool) (s : AsmState) (b : Nat) :
    flushCount (stepBit cap mode s b).out
      = flushCount s.out + (if s.index + 1 = cap then 1 else 0) := by
  unfold stepBit
  by_cases hm : mode = true <;>
    simp only [hm, Bool.false_eq_true, if_true, if_false] <;>
    by_cases h : s.index + 1 = cap <;>
    simp [h, flushCount_append, flushCount]

theorem foldl_index (cap : Nat) (mode : Bool) (bits : List Nat) (s : AsmState) :
    (bits.foldl (stepBit cap mode) s).index = s.index + bits.length := by
  induction bits generalizing s with
  | nil => simp
  | cons b rest ih =>
    rw [List.foldl_cons, ih, stepBit_index]
    simp
    omega

theorem runAssembler_index (cap : Nat) (mode : Bool) (bits : List Nat) :
    (runAssembler cap mode bits).index = bits.length := by
  unfold runAssembler
  rw [foldl_index]
  simp [initAsm]

theorem foldl_flushCount (cap : Nat) (mode : Bool) (bits : List Nat) (s : AsmState) :
    flushCount (bits.foldl (stepBit cap mode) s).out
      = flushCount s.out
        + (if s.index < cap ∧ cap ≤ s.index + bits.length then 1 else 0) := by
  induction bits generalizing s with
  | nil => simp
  | cons b rest ih =>
    rw [List.foldl_cons, ih, stepBit_flushCount, stepBit_index]
    simp only [List.length_cons]
    split_ifs <;> omega

theorem runAssembler_flushCount (cap : Nat) (mode : Bool) (bits : List Nat) :
    flushCount (runAssembler cap mode bits).out
      = if 0 < cap ∧ cap ≤ bits.length then 1 else 0 := by
  unfold runAssembler
  rw [foldl_flushCount]
  simp [initAsm, flushCount]

theorem foldl_oob (cap : Nat) (bits : List Nat) (s : AsmState) :
    (bits.foldl (stepBit cap false) s).oob
      = (s.oob || decide (0 < bits.length ∧ cap < s.index + bits.length)) := by
  induction bits generalizing s with
  | nil => simp
  | cons b rest ih =>
    rw [List.foldl_cons, ih, stepBit_oob, stepBit_index]
    simp only [List.length_cons, Bool.or_assoc]
    cases hoob : s.oob
    · simp only [Bool.false_or]
      rw [Bool.eq_iff_iff]
      simp only [Bool.or_eq_true, decide_eq_true_eq]
      omega
    · simp

theorem runAssembler_oob (cap : Nat) (bits : List Nat) :
    (runAssembler cap false bits).oob = decide (cap < bits.length) := by
  unfold runAssembler
  rw [foldl_oob]
  simp only [initAsm, Bool.false_or, Nat.zero_add]
  rw [Bool.eq_iff_iff]
  simp only [decide_eq_true_eq]
  omega

/-- C1 (refuted): the claim that for a delivered bit sequence B exactly
⌊|B| / capacity⌋ complete frames are emitted fails: because the write
cursor is never reset (`index == 0;` at line 162 is a no-effect
comparison, and the baseband branch has no reset at all), the assembler
flushes exactly once in any run that ever fills the first frame — in
both modes — so with capacity 2 and four delivered bits it emits 1 frame
where the claim demands ⌊4/2⌋ = 2. -/
theorem frame_emission_undercount :
    (∀ cap : Nat, ∀ mode : Bool, ∀ bits : List Nat,
       flushCount (runAssembler cap mode bits).out
         = if 0 < cap ∧ cap ≤ bits.length then 1 else 0) ∧
    flushCount (runAssembler 2 false (List.replicate 4 1)).out = 1 ∧
    flushCount (runAssembler 2 true (List.replicate 4 1)).out = 1 ∧
    (List.replicate 4 1).length / 2 = 2 := by
  refine ⟨fun cap mode bits => runAssembler_flushCount cap mode bits, ?_, ?_, ?_⟩
  · rw [runAssembler_flushCount]; decide
  · rw [runAssembler_flushCount]; decide
  · decide

/-- C2 (refuted): the claim that the cursor is reset and the output
flushed once per completed frame fails: the cursor equals the total
number of bits consumed after every run (it is never reset to the frame
start — `index == 0;` at line 162 is a comparison, not an assignment),
and with capacity 2 and four bits the stream is flushed once, not once
per each of the two completed frames, in both output modes. -/
theorem cursor_never_reset :
    (∀ cap : Nat, ∀ mode : Bool, ∀ bits : List Nat,
       (runAssembler cap mode bits).index = bits.length) ∧
    (runAssembler 2 true (List.replicate 4 1)).index = 4 ∧
    flushCount (runAssembler 2 true (List.replicate 4 1)).out = 1 ∧
    flushCount (runAssembler 2 false (List.replicate 4 1)).out = 1 := by
  refine ⟨fun cap mode bits => runAssembler_index cap mode bits, ?_, ?_, ?_⟩
  · rw [runAssembler_index]; decide
  · rw [runAssembler_flushCount]; decide
  · rw [runAssembler_flushCount]; decide

/-- C3 (refuted): the claim that at each store into the frame buffer the
write cursor lies in [0, capacity) fails in baseband mode: since the
cursor is never reset, as soon as more than capacity bits are delivered
the store `bitstream[index++] = bits` is attempted with the cursor at or
beyond capacity — out of bounds; with capacity 2 this happens on the
third bit. -/
theorem cursor_out_of_bounds :
    (∀ cap : Nat, ∀ bits : List Nat,
       (runAssembler cap false bits).oob = decide (cap < bits.length)) ∧
    (runAssembler 2 false [1, 1, 1]).oob = true := by
  refine ⟨fun cap bits => runAssembler_oob cap bits, ?_⟩
  rw [runAssembler_oob]; decide

/-! ### Capture-stage lemmas -/

theorem captureRun_eq (input : List Int) (s : Int) :
    captureRun input s = input ++ [input.getLastD s] := by
  induction input generalizing s with
  | nil => rfl
  | cons x rest ih =>
    show x :: captureRun rest x = (x :: rest) ++ [(x :: rest).getLastD s]
    rw [ih, List.getLastD_cons, List.cons_append]

/-- C4 counterexample: the claim that the capture thread enqueues exactly
the samples read in full, with no further put after the failed read,
fails on the empty input stream: the loop body still runs once (the
stream is only tested at the loop top), the read fails leaving `sample`
at its initial 0, and that stale 0 is put into the audio queue. -/
theorem capture_eof_counterexample :
    capturePuts [] = [0] ∧ capturePuts [] ≠ [] := by
  decide

/-- C4 as amended: the capture thread enqueues every sample that was read
in full, in order, followed by exactly one further put of the stale value
of `sample` (the last successfully read sample, or the initial 0 when
nothing was read) issued in the iteration whose read fails at short
read/EOF; only then does the loop stop. -/
theorem capture_eof_stale_put (input : List Int) :
    capturePuts input = input ++ [input.getLastD 0] :=
  captureRun_eq input 0

/-- C5: in every run that reaches teardown, `main` performs, in order:
clear the run-control flag, ptt_off, wait_until_idle, join the capture
thread, close the audio queue, retrieve the encoding task's completion
result, close the bitstream queue; in particular the key line is
released before the completion handle is retrieved, which happens before
the bitstream queue is closed. -/
theorem shutdown_ordering :
    teardownSeq
      = [TearEvent.clearRunFlag, TearEvent.pttOff, TearEvent.waitUntilIdle,
         TearEvent.joinCaptureThread, TearEvent.closeAudioQueue,
         TearEvent.futureGet, TearEvent.closeBitstreamQueue] ∧
    teardownSeq.indexOf TearEvent.pttOff
      < teardownSeq.indexOf TearEvent.futureGet ∧
    teardownSeq.indexOf TearEvent.futureGet
      < teardownSeq.indexOf TearEvent.closeBitstreamQueue := by
  refine ⟨rfl, by decide, by decide⟩

/-- C6: whenever `get` on the bitstream queue returns no bit, the
assembler asserts that the queue is closed — under the precondition that
the queue is closed the abort branch is not taken — and then clears the
run-control flag and exits its loop; when the queue is not closed the
assertion aborts instead of continuing. -/
theorem get_timeout_means_closed (closed : Bool) :
    (closed = true → onEmptyGet closed = Except.ok (false, true)) ∧
    (closed = false →
      onEmptyGet closed
        = Except.error "assertion failed: bitstream_queue->is_closed()") := by
  cases closed
  · exact ⟨fun h => Bool.noConfusion h, fun _ => rfl⟩
  · exact ⟨fun _ => rfl, fun h => Bool.noConfusion h⟩

/-- C6 witness: with the queue closed, the empty `get` result makes the
assembler clear the flag and exit without aborting. -/
theorem get_timeout_means_closed_witness :
    onEmptyGet true = Except.ok (false, true) :=
  (get_timeout_means_closed true).1 rfl

/-! ### Run-control-flag lemmas -/

theorem flagAfter_concat (l : List FlagWrite) (w : FlagWrite) :
    flagAfter (l ++ [w]) = w.value := by
  simp [flagAfter, List.foldl_append]

theorem flagAfter_true_mem (l : List FlagWrite) (h : flagAfter l = true) :
    FlagWrite.captureEntry ∈ l := by
  rcases List.eq_nil_or_concat l with rfl | ⟨l', w, rfl⟩
  · simp [flagAfter] at h
  · rw [List.concat_eq_append] at h ⊢
    rw [flagAfter_concat] at h
    have hw : w = FlagWrite.captureEntry := by
      cases w <;> simp [FlagWrite.value] at h <;> rfl
    rw [hw]
    exact List.mem_append_right l' (List.mem_singleton.mpr rfl)

/-- C8: the run-control flag is written `true` only by the capture
thread's one-per-run loop-entry write; hence in every valid single-run
write trace (at most one loop-entry write), once the flag has been true
(after some prefix `p`) and then false (after `p ++ q`), it stays false
at every later point of the run: any continuation `r` of the trace still
leaves it false. -/
theorem run_flag_monotone (p q r : List FlagWrite)
    (hvalid : validTrace (p ++ q ++ r))
    (htrue : flagAfter p = true)
    (hfalse : flagAfter (p ++ q) = false) :
    flagAfter (p ++ q ++ r) = false := by
  rcases List.eq_nil_or_concat r with rfl | ⟨r', w, rfl⟩
  · rw [List.append_nil]; exact hfalse
  · rw [List.concat_eq_append] at hvalid ⊢
    rw [← List.append_assoc, flagAfter_concat]
    have hmem : FlagWrite.captureEntry ∈ p := flagAfter_true_mem p htrue
    unfold validTrace at hvalid
    have hp1 : 0 < p.count FlagWrite.captureEntry :=
      List.count_pos_iff.mpr hmem
    cases w
    case captureEntry =>
      exfalso
      simp [List.count_append] at hvalid
      omega
    all_goals rfl

/-- C8 witness: a run whose trace is the capture thread's entry write
(`true`), then the signal handler's write (`false`), then the teardown
write, is valid and leaves the flag false. -/
theorem run_flag_monotone_witness :
    validTrace ([FlagWrite.captureEntry] ++ [FlagWrite.sigintHandler]
      ++ [FlagWrite.teardownClear]) ∧
    flagAfter ([FlagWrite.captureEntry] ++ [FlagWrite.sigintHandler]
      ++ [FlagWrite.teardownClear]) = false :=
  ⟨by decide,
   run_flag_monotone [FlagWrite.captureEntry] [FlagWrite.sigintHandler]
     [FlagWrite.teardownClear] (by decide) (by decide) (by decide)⟩

end M17Mod
